import Mathlib

/-!
Shallow embedding of `src/stars.rs` (crate `soj-wasm`): an animated star-field
renderer.  The numeric type `f32` is idealised as `ℚ`; the transcendental
primitives (`sin`, `cos`, `ln`, `sqrt`) and the constant `π`, which `f32`
computes approximately, are passed explicitly in a `MathPrims` record so that
theorems can state exactly which analytic facts they rely on.  Randomness
(`js_sys::Math::random()`, values in `[0,1)`) is embedded as explicit draw
records supplied to each operation.  The WebGL handles (`gl`, buffers,
programs, canvas) perform no simulation logic and are omitted from the state;
the vertex-buffer *contents* uploaded by `update()` are modelled by
`buildStarData` / `buildMeteorData`.
-/

namespace SOJ

/-- The transcendental / analytic primitives the Rust code takes from `f32`
(`sin`, `cos`, `ln`, `sqrt`) and `std::f32::consts::PI`, abstracted as
rational-valued stand-ins. -/
structure MathPrims where
  sinQ : ℚ → ℚ
  cosQ : ℚ → ℚ
  lnQ : ℚ → ℚ
  sqrtQ : ℚ → ℚ
  piQ : ℚ

/-- `struct Star` from `stars.rs`. -/
structure Star where
  x : ℚ
  y : ℚ
  radius : ℚ
  vx : ℚ
  vy : ℚ
  base_alpha : ℚ
  twinkle_phase : ℚ
  twinkle_speed : ℚ
  alpha : ℚ
  color : ℚ × ℚ × ℚ
deriving DecidableEq, Repr

/-- `struct Meteor` from `stars.rs`. -/
structure Meteor where
  x : ℚ
  y : ℚ
  vx : ℚ
  vy : ℚ
  lifetime : ℚ
  max_lifetime : ℚ
  point_size : ℚ
  color : ℚ × ℚ × ℚ
deriving DecidableEq, Repr

/-- The simulation-relevant fields of `struct StarField` (the WebGL context,
canvas, buffer and program handles carry no simulation state and are
omitted). -/
structure StarField where
  stars : List Star
  meteors : List Meteor
  resolution : ℚ × ℚ
deriving DecidableEq, Repr

/-- `METEOR_TRAIL_LENGTH` constant. -/
def METEOR_TRAIL_LENGTH : ℚ := 300

/-- `METEOR_WIDTH` constant. -/
def METEOR_WIDTH : ℚ := 1/2

/-- Star physics of one `update()` iteration (lines 330-341 of `stars.rs`):
drift by velocity, damp velocity by `0.995`, wrap each coordinate to the
opposite edge of `[0, resolution]`, advance the twinkle phase, and recompute
`alpha = clamp(base_alpha + 0.3 * sin(phase), 0, 1)`. -/
def updateStar (sinQ : ℚ → ℚ) (res : ℚ × ℚ) (s : Star) : Star :=
  let dt : ℚ := 1
  let x1 := s.x + s.vx * dt
  let y1 := s.y + s.vy * dt
  let vx1 := s.vx * (995/1000)
  let vy1 := s.vy * (995/1000)
  let x2 := if x1 > res.1 then 0 else x1
  let x3 := if x2 < 0 then res.1 else x2
  let y2 := if y1 > res.2 then 0 else y1
  let y3 := if y2 < 0 then res.2 else y2
  let phase1 := s.twinkle_phase + s.twinkle_speed * dt
  let a1 := s.base_alpha + (3/10) * sinQ phase1
  let a2 := min (max a1 0) 1
  { s with x := x3, y := y3, vx := vx1, vy := vy1, twinkle_phase := phase1, alpha := a2 }

/-- The random draws one `update()` call may consume for meteor spawning:
the spawn roll and, when it fires, the uniform position draws. -/
structure FrameRand where
  meteorRoll : ℚ
  meteorX : ℚ
  meteorY : ℚ
deriving DecidableEq, Repr

/-- Meteor construction in `update()` (lines 360-377): position uniform in the
resolution rectangle, speed `1.0` at angle `π/4` (so `vx = cos(π/4)`,
`vy = sin(π/4)`), `lifetime = 0`, `max_lifetime = 50`, colour pale yellow. -/
def spawnMeteor (P : MathPrims) (fr : FrameRand) (res : ℚ × ℚ) : Meteor :=
  let speed : ℚ := 1
  let angle := P.piQ / 4
  { x := fr.meteorX * res.1
    y := fr.meteorY * res.2
    vx := speed * P.cosQ angle
    vy := speed * P.sinQ angle
    lifetime := 0
    max_lifetime := 50
    point_size := 0
    color := (1, 1, 8/10) }

/-- Meteor physics of one `update()` iteration (lines 378-382): drift by
velocity and age by `dt = 1`. -/
def stepMeteor (m : Meteor) : Meteor :=
  let dt : ℚ := 1
  { m with x := m.x + m.vx * dt, y := m.y + m.vy * dt, lifetime := m.lifetime + dt }

/-- One full `update()` call (lines 326-458) as a state transition: star
physics, probabilistic meteor spawn (`roll < 0.001`, the new meteor pushed at
the end of the vector), meteor physics, then retention of meteors with
`lifetime < max_lifetime`.  The vertex buffers it uploads are functions of the
resulting lists, modelled separately by `buildStarData`/`buildMeteorData`. -/
def updateState (P : MathPrims) (fr : FrameRand) (st : StarField) : StarField :=
  let stars1 := st.stars.map (updateStar P.sinQ st.resolution)
  let ms1 := if fr.meteorRoll < 1/1000
    then st.meteors ++ [spawnMeteor P fr st.resolution]
    else st.meteors
  let ms2 := ms1.map stepMeteor
  let ms3 := ms2.filter fun m => decide (m.lifetime < m.max_lifetime)
  { st with stars := stars1, meteors := ms3 }

/-- The star vertex buffer built in `update()` (lines 342-353): per star the
seven floats `(x, y, max(radius*100, 1), alpha, r, g, b)`, in star order. -/
def buildStarData : List Star → List ℚ
  | [] => []
  | s :: rest =>
    s.x :: s.y :: max (s.radius * 100) 1 :: s.alpha ::
      s.color.1 :: s.color.2.1 :: s.color.2.2 :: buildStarData rest

/-- The velocity normalisation in the meteor-trail geometry (lines 389-394):
direction `v / |v|` when `|v| > 0.0001`, else the fallback `(1, 0)`. -/
def meteorNormDir (sqrtQ : ℚ → ℚ) (m : Meteor) : ℚ × ℚ :=
  let speed := sqrtQ (m.vx * m.vx + m.vy * m.vy)
  if speed > 1/10000 then (m.vx / speed, m.vy / speed) else (1, 0)

/-- The 36 floats (six vertices of `(x, y, alpha, r, g, b)`) one meteor
contributes to the meteor vertex buffer (lines 386-452): head pair at
`head_alpha = 1 - lifetime/max_lifetime`, tail pair (displaced by
`normdir * 300`) at alpha `0`, emitted as the two triangles
`v0 v1 v2` and `v1 v2 v3`. -/
def meteorVertices (sqrtQ : ℚ → ℚ) (m : Meteor) : List ℚ :=
  let nd := meteorNormDir sqrtQ m
  let tail_x := m.x - nd.1 * METEOR_TRAIL_LENGTH
  let tail_y := m.y - nd.2 * METEOR_TRAIL_LENGTH
  let perp_x := -nd.2
  let perp_y := nd.1
  let half_width := METEOR_WIDTH / 2
  let v0x := m.x + perp_x * half_width
  let v0y := m.y + perp_y * half_width
  let v1x := m.x - perp_x * half_width
  let v1y := m.y - perp_y * half_width
  let v2x := tail_x + perp_x * half_width
  let v2y := tail_y + perp_y * half_width
  let v3x := tail_x - perp_x * half_width
  let v3y := tail_y - perp_y * half_width
  let head_alpha := 1 - m.lifetime / m.max_lifetime
  let tail_alpha : ℚ := 0
  [v0x, v0y, head_alpha, m.color.1, m.color.2.1, m.color.2.2,
   v1x, v1y, head_alpha, m.color.1, m.color.2.1, m.color.2.2,
   v2x, v2y, tail_alpha, m.color.1, m.color.2.1, m.color.2.2,
   v1x, v1y, head_alpha, m.color.1, m.color.2.1, m.color.2.2,
   v2x, v2y, tail_alpha, m.color.1, m.color.2.1, m.color.2.2,
   v3x, v3y, tail_alpha, m.color.1, m.color.2.1, m.color.2.2]

/-- The meteor vertex buffer built in `update()` (lines 385-452), in meteor
order. -/
def buildMeteorData (sqrtQ : ℚ → ℚ) : List Meteor → List ℚ
  | [] => []
  | m :: rest => meteorVertices sqrtQ m ++ buildMeteorData sqrtQ rest

/-- The random draws one iteration of the `init_stars` loop may consume
(lines 212-248): radius draw, core-placement roll and offsets, the uniform
`x` draw, the gaussian-vs-uniform `chance` roll, the Box-Muller pair, the
uniform `y` fallback, and the velocity / alpha / phase / speed / colour
draws. -/
structure InitRand where
  r : ℚ
  coreRoll : ℚ
  coreX : ℚ
  coreY : ℚ
  xDraw : ℚ
  chance : ℚ
  u1 : ℚ
  u2 : ℚ
  yDraw : ℚ
  rvx : ℚ
  rvy : ℚ
  rAlpha : ℚ
  rPhase : ℚ
  rSpeed : ℚ
  rColor : ℚ
deriving DecidableEq, Repr

/-- One iteration of the `init_stars` loop (lines 212-260): quadratically
skewed radius, optional central "core" placement for large stars, otherwise
uniform `x` and (80% of the time) Box-Muller gaussian `y` with `u1` clamped
away from `0` by `max 0.000001` and the result clamped to `[0, height]`,
then velocity, brightness tier, twinkle parameters and colour. -/
def initStar (P : MathPrims) (width height : ℚ) (d : InitRand) : Star :=
  let center_x := width / 2
  let center_y := height / 2
  let radius := 5/1000 + (4/100 - 5/1000) * d.r * d.r
  let pos : ℚ × ℚ :=
    if radius > 35/1000 ∧ d.coreRoll < 1/2 then
      (center_x + (d.coreX - 1/2) * (width * (2/10)),
       center_y + (d.coreY - 1/2) * (height * (2/10)))
    else
      let x := d.xDraw * width
      if d.chance < 8/10 then
        let u1 := max d.u1 (1/1000000)
        let gaussian := P.sqrtQ (-2 * P.lnQ u1) * P.cosQ (2 * P.piQ * d.u2)
        let sigma := height * (15/100)
        let y := center_y + sigma * gaussian
        (x, min (max y 0) height)
      else
        (x, d.yDraw * height)
  let vx := (d.rvx - 1/2) * (1/10)
  let vy := (d.rvy - 1/2) * (1/10)
  let base_alpha : ℚ := if d.rAlpha < 33/100 then 1/2 else if d.rAlpha < 66/100 then 7/10 else 9/10
  let twinkle_phase := d.rPhase * (628318530718/100000000000)
  let twinkle_speed := 2/1000 + d.rSpeed * (3/1000)
  let color : ℚ × ℚ × ℚ :=
    if d.rColor < 33/100 then (1, 8/10, 5/10)
    else if d.rColor < 66/100 then (5/10, 8/10, 1)
    else (1, 1, 1)
  { x := pos.1, y := pos.2, radius := radius, vx := vx, vy := vy,
    base_alpha := base_alpha, twinkle_phase := twinkle_phase,
    twinkle_speed := twinkle_speed, alpha := base_alpha, color := color }

/-- `StarField::init_stars` (lines 209-262): one star per draw record, so the
requested `num_stars` is the length of the draw list. -/
def init_stars (P : MathPrims) (width height : ℚ) (draws : List InitRand) : List Star :=
  draws.map (initStar P width height)

/-- The rejection loop of `pick_random_in_diff_area` (lines 523-529), with the
candidate uniform draw pairs supplied as a list (the loop terminates with
probability 1; an exhausted list falls back to `(0,0)`). -/
def pickLoop (old_width old_height new_width new_height : ℚ) :
    List (ℚ × ℚ) → ℚ × ℚ
  | [] => (0, 0)
  | d :: rest =>
    let x := d.1 * new_width
    let y := d.2 * new_height
    if x > old_width ∨ y > old_height then (x, y)
    else pickLoop old_width old_height new_width new_height rest

/-- `pick_random_in_diff_area` (lines 518-530): when neither dimension grew it
returns a uniform point in the new rectangle outright, otherwise it rejection
samples until the point leaves the old rectangle. -/
def pick_random_in_diff_area (old_width old_height new_width new_height : ℚ)
    (draws : List (ℚ × ℚ)) : ℚ × ℚ :=
  if new_width ≤ old_width ∧ new_height ≤ old_height then
    match draws with
    | [] => (0, 0)
    | d :: _ => (d.1 * new_width, d.2 * new_height)
  else pickLoop old_width old_height new_width new_height draws

/-- The random draws one backfill star of `resize()` consumes (lines 292-309):
the position candidates for `pick_random_in_diff_area` plus the attribute
draws. -/
structure BackfillRand where
  pickDraws : List (ℚ × ℚ)
  r : ℚ
  rvx : ℚ
  rvy : ℚ
  rAlpha : ℚ
  rPhase : ℚ
  rSpeed : ℚ
  rColor : ℚ
deriving DecidableEq, Repr

/-- One backfill star of the `resize()` grow branch (lines 291-322): position
from `pick_random_in_diff_area`, attributes sampled as in `init_stars` but
with no core placement and no gaussian `y`. -/
def mkBackfillStar (old_width old_height new_width new_height : ℚ)
    (br : BackfillRand) : Star :=
  let pos := pick_random_in_diff_area old_width old_height new_width new_height br.pickDraws
  let radius := 5/1000 + (4/100 - 5/1000) * br.r * br.r
  let vx := (br.rvx - 1/2) * (1/10)
  let vy := (br.rvy - 1/2) * (1/10)
  let base_alpha : ℚ := if br.rAlpha < 33/100 then 1/2 else if br.rAlpha < 66/100 then 7/10 else 9/10
  let twinkle_phase := br.rPhase * (628318530718/100000000000)
  let twinkle_speed := 2/1000 + br.rSpeed * (3/1000)
  let color : ℚ × ℚ × ℚ :=
    if br.rColor < 33/100 then (1, 8/10, 5/10)
    else if br.rColor < 66/100 then (5/10, 8/10, 1)
    else (1, 1, 1)
  { x := pos.1, y := pos.2, radius := radius, vx := vx, vy := vy,
    base_alpha := base_alpha, twinkle_phase := twinkle_phase,
    twinkle_speed := twinkle_speed, alpha := base_alpha, color := color }

/-- `StarField::resize` (lines 264-324) with the externally computed new
device-pixel dimensions as inputs.  The resolution is always updated; with an
invalid previous size nothing else happens.  Otherwise stars outside the new
rectangle are culled and, when the area grew, `ceil(density * extra_area)`
fresh stars (density measured after the cull, against `max(old_area, 1)`) are
appended, each drawing from the supply `bf`.  The meteors vector is not
touched. -/
def resize (new_width new_height : ℚ) (bf : Nat → BackfillRand) (st : StarField) :
    StarField :=
  let old_width := st.resolution.1
  let old_height := st.resolution.2
  let st1 : StarField := { st with resolution := (new_width, new_height) }
  if old_width ≤ 0 ∨ old_height ≤ 0 then st1
  else
    let retained := st.stars.filter fun s =>
      decide (s.x ≥ 0 ∧ s.x ≤ new_width ∧ s.y ≥ 0 ∧ s.y ≤ new_height)
    let old_area := old_width * old_height
    let new_area := new_width * new_height
    if new_area > old_area then
      let density := (retained.length : ℚ) / max old_area 1
      let extra_area := new_area - old_area
      let stars_to_add := (⌈density * extra_area⌉).toNat
      { st1 with stars := retained ++ (List.range stars_to_add).map fun i =>
          mkBackfillStar old_width old_height new_width new_height (bf i) }
    else
      { st1 with stars := retained }

/-- An external stimulus to the star field: one animation frame (`update`)
or one resize notification with its new dimensions and backfill draws. -/
inductive Event where
  | upd : FrameRand → Event
  | rsz : ℚ → ℚ → (Nat → BackfillRand) → Event

/-- Dispatch of one event to the state. -/
def applyEvent (P : MathPrims) (st : StarField) : Event → StarField
  | .upd fr => updateState P fr st
  | .rsz w h bf => resize w h bf st

/-- The host loop: a sequence of frame and resize callbacks applied in
order (per `start_starfield`, lines 532-564, the two callbacks never
overlap). -/
def run (P : MathPrims) : List Event → StarField → StarField
  | [], st => st
  | e :: es, st => run P es (applyEvent P st e)

/-- Iterated `update()` calls (the frame loop with no resizes). -/
def updates (P : MathPrims) : List FrameRand → StarField → StarField
  | [], st => st
  | fr :: frs, st => updates P frs (updateState P fr st)

/-- IEEE-style extended value: a finite rational, an infinity, or NaN.  Used
to reason about the `f32` special values which the `ℚ` idealisation cannot
represent. -/
inductive EF where
  | fin : ℚ → EF
  | posInf : EF
  | negInf : EF
  | nan : EF
deriving DecidableEq, Repr

/-- Whether an extended value is finite (neither infinite nor NaN). -/
def EF.isFinite : EF → Bool
  | .fin _ => true
  | _ => false

/-- `ln` on extended values, following IEEE `f32::ln`: positive finite inputs
give the finite value `lnQ x`, `ln 0 = -∞`, negative inputs give NaN,
`ln ∞ = ∞`. -/
def lnE (lnQ : ℚ → ℚ) : EF → EF
  | .fin q => if 0 < q then .fin (lnQ q) else if q = 0 then .negInf else .nan
  | .posInf => .posInf
  | .negInf => .nan
  | .nan => .nan

/-- `sqrt` on extended values, following IEEE `f32::sqrt`: nonnegative finite
inputs give the finite `sqrtQ x`, negative inputs give NaN, `sqrt ∞ = ∞`. -/
def sqrtE (sqrtQ : ℚ → ℚ) : EF → EF
  | .fin q => if 0 ≤ q then .fin (sqrtQ q) else .nan
  | .posInf => .posInf
  | .negInf => .nan
  | .nan => .nan

/-- `cos` on extended values: finite inputs give a finite value, infinite or
NaN inputs give NaN. -/
def cosE (cosQ : ℚ → ℚ) : EF → EF
  | .fin q => .fin (cosQ q)
  | _ => .nan

/-- Multiplication by the finite constant `-2`, following IEEE semantics. -/
def negTwoMulE : EF → EF
  | .fin q => .fin (-2 * q)
  | .posInf => .negInf
  | .negInf => .posInf
  | .nan => .nan

/-- IEEE-style multiplication on extended values (`∞ * 0 = NaN`). -/
def mulE : EF → EF → EF
  | .fin p, .fin q => .fin (p * q)
  | .nan, _ => .nan
  | _, .nan => .nan
  | .posInf, .fin q => if 0 < q then .posInf else if q < 0 then .negInf else .nan
  | .negInf, .fin q => if 0 < q then .negInf else if q < 0 then .posInf else .nan
  | .fin p, .posInf => if 0 < p then .posInf else if p < 0 then .negInf else .nan
  | .fin p, .negInf => if 0 < p then .negInf else if p < 0 then .posInf else .nan
  | .posInf, .posInf => .posInf
  | .posInf, .negInf => .negInf
  | .negInf, .posInf => .negInf
  | .negInf, .negInf => .posInf

/-- The Box-Muller expression of `init_stars` (lines 225-227) evaluated in
extended-value semantics, tracking the `f32` special values:
`sqrt(-2 * ln(max u1 0.000001)) * cos(2π u2)`. -/
def boxMullerE (P : MathPrims) (u1raw u2 : ℚ) : EF :=
  let u1 := max u1raw (1/1000000)
  mulE (sqrtE P.sqrtQ (negTwoMulE (lnE P.lnQ (.fin u1))))
       (cosE P.cosQ (.fin (2 * P.piQ * u2)))

/-- The same Box-Muller expression with the `max 0.000001` clamp removed, for
contrast: at `u1 = 0` it evaluates `ln 0 = -∞`. -/
def boxMullerNoClampE (P : MathPrims) (u1 u2 : ℚ) : EF :=
  mulE (sqrtE P.sqrtQ (negTwoMulE (lnE P.lnQ (.fin u1))))
       (cosE P.cosQ (.fin (2 * P.piQ * u2)))

/-- A concrete primitive record for evaluating the model on closed inputs. -/
def Pc : MathPrims :=
  { sinQ := fun _ => 0, cosQ := fun _ => 0, lnQ := fun _ => -1,
    sqrtQ := fun _ => 1, piQ := 3 }

/-- A concrete primitive record whose `cos`/`sin` at `π/4` sit in the interval
`[7/10, 1]` that the true `f32` values `cos(π/4) = sin(π/4) ≈ 0.7071` occupy. -/
def Pc9 : MathPrims :=
  { sinQ := fun _ => 7/10, cosQ := fun _ => 7/10, lnQ := fun _ => -1,
    sqrtQ := fun _ => 1, piQ := 3 }

/-- A frame whose spawn roll fires (`0 < 0.001`). -/
def frS : FrameRand := { meteorRoll := 0, meteorX := 1/2, meteorY := 1/2 }

/-- A frame whose spawn roll does not fire (`1 ≥ 0.001`). -/
def frN : FrameRand := { meteorRoll := 1, meteorX := 0, meteorY := 0 }

/-- An empty 100×100 field. -/
def st0 : StarField := { stars := [], meteors := [], resolution := (100, 100) }

/-- The star of the C6 scenario: position `(10,10)`, radius `0.01`,
alpha `0.5`, white. -/
def starC6 : Star :=
  { x := 10, y := 10, radius := 1/100, vx := 0, vy := 0, base_alpha := 1/2,
    twinkle_phase := 0, twinkle_speed := 0, alpha := 1/2, color := (1, 1, 1) }

/-- A 100×100 field holding the single star `starC6`. -/
def stC2 : StarField := { stars := [starC6], meteors := [], resolution := (100, 100) }

/-- A star in the middle of a 100×100 surface. -/
def starC5 : Star :=
  { x := 50, y := 50, radius := 1/100, vx := 0, vy := 0, base_alpha := 1/2,
    twinkle_phase := 0, twinkle_speed := 0, alpha := 1/2, color := (1, 1, 1) }

/-- A 100×100 field holding the single star `starC5`. -/
def stC5 : StarField := { stars := [starC5], meteors := [], resolution := (100, 100) }

/-- A live meteor with `lifetime = 3` of `max_lifetime = 50`. -/
def meteorC3 : Meteor :=
  { x := 20, y := 20, vx := 1, vy := 1, lifetime := 3, max_lifetime := 50,
    point_size := 0, color := (1, 1, 8/10) }

/-- A 100×100 field holding the single meteor `meteorC3`. -/
def stC3 : StarField := { stars := [], meteors := [meteorC3], resolution := (100, 100) }

/-- A constant backfill-draw supply. -/
def bf0 : Nat → BackfillRand := fun _ =>
  { pickDraws := [], r := 0, rvx := 0, rvy := 0, rAlpha := 0, rPhase := 0,
    rSpeed := 0, rColor := 0 }

/-- A concrete init-draw record. -/
def d0 : InitRand :=
  { r := 0, coreRoll := 0, coreX := 0, coreY := 0, xDraw := 0, chance := 0,
    u1 := 0, u2 := 0, yDraw := 0, rvx := 0, rvy := 0, rAlpha := 0, rPhase := 0,
    rSpeed := 0, rColor := 0 }

/-! ## Theorems -/

lemma updateStar_alpha_bounds (sinQ : ℚ → ℚ) (res : ℚ × ℚ) (s : Star) :
    0 ≤ (updateStar sinQ res s).alpha ∧ (updateStar sinQ res s).alpha ≤ 1 := by
  dsimp [updateStar]
  exact ⟨le_min (le_max_right _ _) zero_le_one, min_le_right _ _⟩

lemma initStar_alpha_bounds (P : MathPrims) (w h : ℚ) (d : InitRand) :
    0 ≤ (initStar P w h d).alpha ∧ (initStar P w h d).alpha ≤ 1 := by
  dsimp [initStar]
  split_ifs <;> norm_num

lemma mkBackfillStar_alpha_bounds (ow oh nw nh : ℚ) (br : BackfillRand) :
    0 ≤ (mkBackfillStar ow oh nw nh br).alpha ∧ (mkBackfillStar ow oh nw nh br).alpha ≤ 1 := by
  dsimp [mkBackfillStar]
  split_ifs <;> norm_num

lemma resize_stars_mem (nw nh : ℚ) (bf : Nat → BackfillRand) (st : StarField) (s : Star)
    (hs : s ∈ (resize nw nh bf st).stars) :
    s ∈ st.stars ∨ ∃ i, s = mkBackfillStar st.resolution.1 st.resolution.2 nw nh (bf i) := by
  unfold resize at hs
  dsimp only at hs
  split at hs
  · exact Or.inl hs
  · split at hs
    · rcases List.mem_append.1 hs with h1 | h2
      · exact Or.inl (List.mem_of_mem_filter h1)
      · rcases List.mem_map.1 h2 with ⟨i, _, rfl⟩
        exact Or.inr ⟨i, rfl⟩
    · exact Or.inl (List.mem_of_mem_filter hs)

lemma run_alpha_invariant (P : MathPrims) (evs : List Event) (st : StarField)
    (h : ∀ s ∈ st.stars, 0 ≤ s.alpha ∧ s.alpha ≤ 1) :
    ∀ s ∈ (run P evs st).stars, 0 ≤ s.alpha ∧ s.alpha ≤ 1 := by
  induction evs generalizing st with
  | nil => exact h
  | cons e es ih =>
    refine ih (applyEvent P st e) ?_
    cases e with
    | upd fr =>
      intro s hs
      dsimp [applyEvent, updateState] at hs
      rcases List.mem_map.1 hs with ⟨t, _, rfl⟩
      exact updateStar_alpha_bounds _ _ _
    | rsz w hgt bf =>
      intro s hs
      rcases resize_stars_mem w hgt bf st s hs with h1 | ⟨i, rfl⟩
      · exact h s h1
      · exact mkBackfillStar_alpha_bounds _ _ _ _ _

/-- C1: every star in the field — whether created by `init_stars` at startup
or added by the `resize` backfill — has `alpha ∈ [0,1]` after any number of
`update()` calls (and interleaved resizes). -/
theorem star_alpha_in_unit_interval (P : MathPrims) (w h : ℚ)
    (draws : List InitRand) (ms : List Meteor) (evs : List Event) :
    ∀ s ∈ (run P evs
        { stars := init_stars P w h draws, meteors := ms, resolution := (w, h) }).stars,
      0 ≤ s.alpha ∧ s.alpha ≤ 1 := by
  apply run_alpha_invariant
  intro s hs
  dsimp [init_stars] at hs
  rcases List.mem_map.1 hs with ⟨d, _, rfl⟩
  exact initStar_alpha_bounds P w h d

/-- Closed instance of `star_alpha_in_unit_interval` at a concrete field. -/
theorem star_alpha_in_unit_interval_witness :
    0 ≤ (initStar Pc 100 100 d0).alpha ∧ (initStar Pc 100 100 d0).alpha ≤ 1 :=
  star_alpha_in_unit_interval Pc 100 100 [d0] [] []
    (initStar Pc 100 100 d0) (by simp [run, init_stars])

lemma updateStar_pos_bounds (sinQ : ℚ → ℚ) (res : ℚ × ℚ) (s : Star)
    (hw : 0 ≤ res.1) (hh : 0 ≤ res.2) :
    0 ≤ (updateStar sinQ res s).x ∧ (updateStar sinQ res s).x ≤ res.1 ∧
      0 ≤ (updateStar sinQ res s).y ∧ (updateStar sinQ res s).y ≤ res.2 := by
  dsimp [updateStar]
  split_ifs <;> refine ⟨?_, ?_, ?_, ?_⟩ <;> linarith

/-- C2: after `update()` returns every star's position lies in
`[0, resolution.1] × [0, resolution.2]` — the wrap sends an overshooting
coordinate to the opposite edge — provided the resolution is nonnegative. -/
theorem update_star_position_in_bounds (P : MathPrims) (fr : FrameRand) (st : StarField)
    (hw : 0 ≤ st.resolution.1) (hh : 0 ≤ st.resolution.2) :
    ∀ s ∈ (updateState P fr st).stars,
      0 ≤ s.x ∧ s.x ≤ st.resolution.1 ∧ 0 ≤ s.y ∧ s.y ≤ st.resolution.2 := by
  intro s hs
  dsimp [updateState] at hs
  rcases List.mem_map.1 hs with ⟨t, _, rfl⟩
  exact updateStar_pos_bounds P.sinQ st.resolution t hw hh

/-- Closed instance of `update_star_position_in_bounds` at a concrete field. -/
theorem update_star_position_in_bounds_witness :
    0 ≤ (updateStar Pc.sinQ stC2.resolution starC6).x ∧
      (updateStar Pc.sinQ stC2.resolution starC6).x ≤ stC2.resolution.1 ∧
      0 ≤ (updateStar Pc.sinQ stC2.resolution starC6).y ∧
      (updateStar Pc.sinQ stC2.resolution starC6).y ≤ stC2.resolution.2 :=
  update_star_position_in_bounds Pc frN stC2 (by norm_num [stC2]) (by norm_num [stC2])
    (updateStar Pc.sinQ stC2.resolution starC6) (by simp [updateState, stC2])

/-- C3: after `update()` returns, no retained meteor has
`lifetime ≥ max_lifetime`; under the invariant that live meteors entered the
frame with nonnegative lifetime, every retained meteor satisfies
`0 ≤ lifetime < max_lifetime`. -/
theorem update_meteor_lifetime_bounds (P : MathPrims) (fr : FrameRand) (st : StarField)
    (h : ∀ m ∈ st.meteors, 0 ≤ m.lifetime) :
    ∀ m ∈ (updateState P fr st).meteors,
      0 ≤ m.lifetime ∧ m.lifetime < m.max_lifetime := by
  intro m hm
  dsimp [updateState] at hm
  obtain ⟨hmem, hdec⟩ := List.mem_filter.1 hm
  refine ⟨?_, of_decide_eq_true hdec⟩
  rcases List.mem_map.1 hmem with ⟨m0, hm0, rfl⟩
  dsimp [stepMeteor]
  split at hm0
  · rcases List.mem_append.1 hm0 with h1 | h2
    · have := h m0 h1; linarith
    · have : m0 = spawnMeteor P fr st.resolution := by simpa using h2
      subst this
      norm_num [spawnMeteor]
  · have := h m0 hm0; linarith

/-- Closed instance of `update_meteor_lifetime_bounds` at a concrete field. -/
theorem update_meteor_lifetime_bounds_witness :
    0 ≤ (stepMeteor meteorC3).lifetime ∧
      (stepMeteor meteorC3).lifetime < (stepMeteor meteorC3).max_lifetime :=
  update_meteor_lifetime_bounds Pc frN stC3
    (by intro m hm; simp [stC3] at hm; subst hm; norm_num [meteorC3])
    (stepMeteor meteorC3) (by norm_num [updateState, stC3, frN, stepMeteor, meteorC3])

lemma updates_meteors_nil (P : MathPrims) (frs : List FrameRand)
    (hn : ∀ fr ∈ frs, ¬ fr.meteorRoll < 1/1000) (st : StarField)
    (h0 : st.meteors = []) : (updates P frs st).meteors = [] := by
  induction frs generalizing st with
  | nil => exact h0
  | cons fr frs ih =>
    refine ih (fun f hf => hn f (List.mem_cons_of_mem fr hf)) _ ?_
    dsimp [updateState]
    rw [if_neg (hn fr (List.mem_cons_self fr frs)), h0]
    rfl

lemma updates_single_meteor (P : MathPrims) (frs : List FrameRand)
    (hn : ∀ fr ∈ frs, ¬ fr.meteorRoll < 1/1000) (st : StarField) (m : Meteor)
    (hm : st.meteors = [m]) (hmax : m.max_lifetime = 50) (hlt : m.lifetime < 50) :
    (updates P frs st).meteors.length =
      if m.lifetime + frs.length < 50 then 1 else 0 := by
  induction frs generalizing st m with
  | nil =>
    simp only [updates, List.length_nil, Nat.cast_zero, add_zero]
    rw [hm, if_pos hlt]
    rfl
  | cons fr frs ih =>
    have hsl : (stepMeteor m).lifetime = m.lifetime + 1 := rfl
    have hsm : (stepMeteor m).max_lifetime = m.max_lifetime := rfl
    have hstep : (updateState P fr st).meteors =
        if m.lifetime + 1 < m.max_lifetime then [stepMeteor m] else [] := by
      dsimp [updateState]
      rw [if_neg (hn fr (List.mem_cons_self fr frs)), hm]
      by_cases hc : m.lifetime + 1 < m.max_lifetime
      · rw [if_pos hc]
        simp [stepMeteor, hc]
      · rw [if_neg hc]
        simp [stepMeteor, hc]
    have hlen : ((frs.length + 1 : ℕ) : ℚ) = (frs.length : ℚ) + 1 := by
      push_cast
      ring
    by_cases hc : m.lifetime + 1 < 50
    · have hrec := ih (fun f hf => hn f (List.mem_cons_of_mem fr hf))
        (updateState P fr st) (stepMeteor m)
        (by rw [hstep, if_pos (by rw [hmax]; exact hc)])
        (by rw [hsm, hmax]) (by rw [hsl]; exact hc)
      dsimp [updates]
      rw [hrec, hsl, hlen]
      have hcond : (m.lifetime + 1 + (frs.length:ℚ) < 50) ↔
          (m.lifetime + ((frs.length:ℚ) + 1) < 50) := by
        constructor <;> intro h' <;> linarith
      simp only [hcond]
    · dsimp [updates]
      rw [updates_meteors_nil P frs (fun f hf => hn f (List.mem_cons_of_mem fr hf)) _
        (by rw [hstep, if_neg (by rw [hmax]; exact hc)])]
      have hge : ¬ (m.lifetime + ((frs.length + 1 : ℕ) : ℚ) < 50) := by
        rw [hlen]
        push_neg at hc ⊢
        have h0 : (0:ℚ) ≤ (frs.length:ℚ) := by positivity
        linarith
      rw [if_neg hge]
      rfl

lemma updateState_spawn_from_empty (P : MathPrims) (fr : FrameRand) (st : StarField)
    (h0 : st.meteors = []) (hs : fr.meteorRoll < 1/1000) :
    (updateState P fr st).meteors = [stepMeteor (spawnMeteor P fr st.resolution)] := by
  dsimp [updateState]
  rw [if_pos hs, h0]
  simp [stepMeteor, spawnMeteor]

lemma spawn_step_lifetime (P : MathPrims) (fr : FrameRand) (res : ℚ × ℚ) :
    (stepMeteor (spawnMeteor P fr res)).lifetime = 1 ∧
      (stepMeteor (spawnMeteor P fr res)).max_lifetime = 50 := by
  simp [stepMeteor, spawnMeteor]

/-- C4 (amended): a meteor spawned during an `update()` call already has its
lifetime advanced to 1 by that same call, so with `max_lifetime = 50` it
remains in the meteor set after `k` consecutive `update()` calls (the spawning
one included) exactly for `k ≤ 49` — frames 0..48 — and is absent from the
50th call onward. -/
theorem meteor_spawn_lifetime_window (P : MathPrims) (fr0 : FrameRand)
    (frs : List FrameRand) (st : StarField) (h0 : st.meteors = [])
    (hs : fr0.meteorRoll < 1/1000) (hn : ∀ fr ∈ frs, ¬ fr.meteorRoll < 1/1000) :
    (updates P (fr0 :: frs) st).meteors.length = if frs.length + 1 ≤ 49 then 1 else 0 := by
  have hst := updateState_spawn_from_empty P fr0 st h0 hs
  obtain ⟨hlife, hmax⟩ := spawn_step_lifetime P fr0 st.resolution
  dsimp [updates]
  rw [updates_single_meteor P frs hn _ _ hst hmax (by rw [hlife]; norm_num)]
  rw [hlife]
  by_cases hk : frs.length + 1 ≤ 49
  · rw [if_pos hk, if_pos]
    have h48 : frs.length ≤ 48 := by omega
    have : (frs.length : ℚ) ≤ 48 := by exact_mod_cast h48
    linarith
  · rw [if_neg hk, if_neg]
    have h49 : 49 ≤ frs.length := by omega
    have : (49 : ℚ) ≤ (frs.length : ℚ) := by exact_mod_cast h49
    push_neg
    linarith

/-- Closed instance of `meteor_spawn_lifetime_window`: after the spawning call
and 48 further calls (49 in all) the meteor is still present. -/
theorem meteor_spawn_lifetime_window_witness :
    (updates Pc (frS :: List.replicate 48 frN) st0).meteors.length =
      if (List.replicate 48 frN).length + 1 ≤ 49 then 1 else 0 :=
  meteor_spawn_lifetime_window Pc frS (List.replicate 48 frN) st0 rfl
    (by norm_num [frS]) (by intro f hf; rw [List.eq_of_mem_replicate hf]; norm_num [frN])

/-- Counterexample to C4 as stated: in a run where one meteor is spawned on
the first `update()` call and no further spawn roll fires, the meteor was
present right after the spawning call but the meteor set is already empty
after 50 consecutive `update()` calls including the spawning one — the claim
asserts it would still be present after those 50 calls. -/
theorem meteor_fifty_frames_cex :
    (updates Pc [frS] st0).meteors.length = 1 ∧
      (updates Pc (frS :: List.replicate 49 frN) st0).meteors = [] := by
  have hst := updateState_spawn_from_empty Pc frS st0 rfl (by norm_num [frS])
  obtain ⟨hlife, hmax⟩ := spawn_step_lifetime Pc frS st0.resolution
  constructor
  · show (updateState Pc frS st0).meteors.length = 1
    rw [hst]
    rfl
  · have hn : ∀ fr ∈ List.replicate 49 frN, ¬ fr.meteorRoll < 1/1000 := by
      intro f hf; rw [List.eq_of_mem_replicate hf]; norm_num [frN]
    have hlen := updates_single_meteor Pc (List.replicate 49 frN) hn
      (updateState Pc frS st0) _ hst hmax (by rw [hlife]; norm_num)
    rw [hlife] at hlen
    rw [if_neg (by push_cast; norm_num)] at hlen
    exact List.length_eq_zero.1 hlen

/-- Counterexample to C5 as stated: growing the area from 100×100 to 10×2000
(area 20000 > 10000) culls the star at (50,50) — outside the new width — and
the post-cull density is 0, so zero stars are backfilled: the star count
drops from 1 to 0 although the new surface is larger. -/
theorem resize_grow_count_cex :
    stC5.resolution.1 * stC5.resolution.2 < 10 * 2000 ∧
      (resize 10 2000 bf0 stC5).stars.length < stC5.stars.length := by
  constructor
  · norm_num [stC5]
  · norm_num [resize, stC5, starC5]

/-- C5 (amended): with a valid previous size, a resize to an area no larger
than the old one never increases the star count; a resize to a strictly
larger area never decreases the star count provided neither dimension shrank
and every star was inside the old bounds (otherwise the cull step can remove
stars that the density-driven backfill does not replace). -/
theorem resize_count_monotone (new_width new_height : ℚ) (bf : Nat → BackfillRand)
    (st : StarField) (how : 0 < st.resolution.1) (hoh : 0 < st.resolution.2) :
    (new_width * new_height ≤ st.resolution.1 * st.resolution.2 →
      (resize new_width new_height bf st).stars.length ≤ st.stars.length) ∧
    (st.resolution.1 * st.resolution.2 < new_width * new_height →
      st.resolution.1 ≤ new_width → st.resolution.2 ≤ new_height →
      (∀ s ∈ st.stars, 0 ≤ s.x ∧ s.x ≤ st.resolution.1 ∧ 0 ≤ s.y ∧ s.y ≤ st.resolution.2) →
      st.stars.length ≤ (resize new_width new_height bf st).stars.length) := by
  have hnot : ¬ (st.resolution.1 ≤ 0 ∨ st.resolution.2 ≤ 0) := by
    push_neg
    exact ⟨how, hoh⟩
  constructor
  · intro hle
    unfold resize
    dsimp only
    rw [if_neg hnot, if_neg (not_lt.2 hle)]
    exact List.length_filter_le _ _
  · intro hgt hw hh hbound
    unfold resize
    dsimp only
    rw [if_neg hnot, if_pos hgt]
    have hfil : (st.stars.filter fun s =>
        decide (s.x ≥ 0 ∧ s.x ≤ new_width ∧ s.y ≥ 0 ∧ s.y ≤ new_height)) = st.stars := by
      apply List.filter_eq_self.2
      intro s hsmem
      rcases hbound s hsmem with ⟨h1, h2, h3, h4⟩
      exact decide_eq_true ⟨h1, le_trans h2 hw, h3, le_trans h4 hh⟩
    rw [hfil]
    simp only [List.length_append]
    exact Nat.le_add_right _ _

/-- Closed instance of `resize_count_monotone`: a shrink of `stC5` does not
increase the count and an all-dimension grow does not decrease it. -/
theorem resize_count_monotone_witness :
    (resize 50 50 bf0 stC5).stars.length ≤ stC5.stars.length ∧
      stC5.stars.length ≤ (resize 200 200 bf0 stC5).stars.length :=
  ⟨(resize_count_monotone 50 50 bf0 stC5 (by norm_num [stC5]) (by norm_num [stC5])).1
      (by norm_num [stC5]),
   (resize_count_monotone 200 200 bf0 stC5 (by norm_num [stC5]) (by norm_num [stC5])).2
      (by norm_num [stC5]) (by norm_num [stC5]) (by norm_num [stC5])
      (by intro s hs; simp [stC5] at hs; subst hs; norm_num [starC5, stC5])⟩

/-- C6: the star vertex-buffer construction, given exactly one star at
(10,10) with radius 0.01, alpha 0.5 and white colour, emits exactly the seven
floats (10, 10, 1, 0.5, 1, 1, 1): the point size `0.01 * 100 = 1` is exactly
the floor `max (radius * 100) 1 = 1`. -/
theorem star_vertex_record_single :
    buildStarData [starC6] = [10, 10, 1, 1/2, 1, 1, 1] := by
  norm_num [buildStarData, starC6]

lemma buildStarData_length (stars : List Star) :
    (buildStarData stars).length = 7 * stars.length := by
  induction stars with
  | nil => rfl
  | cons s rest ih =>
    simp only [buildStarData, List.length_cons, ih]
    ring

lemma meteorVertices_length (sqrtQ : ℚ → ℚ) (m : Meteor) :
    (meteorVertices sqrtQ m).length = 36 := rfl

lemma buildMeteorData_length (sqrtQ : ℚ → ℚ) (ms : List Meteor) :
    (buildMeteorData sqrtQ ms).length = 36 * ms.length := by
  induction ms with
  | nil => rfl
  | cons m rest ih =>
    simp only [buildMeteorData, List.length_append, meteorVertices_length, ih,
      List.length_cons]
    ring

lemma meteorVertices_alphas (sqrtQ : ℚ → ℚ) (m : Meteor) :
    (meteorVertices sqrtQ m).getD 2 37 = 1 - m.lifetime / m.max_lifetime ∧
    (meteorVertices sqrtQ m).getD 8 37 = 1 - m.lifetime / m.max_lifetime ∧
    (meteorVertices sqrtQ m).getD 20 37 = 1 - m.lifetime / m.max_lifetime ∧
    (meteorVertices sqrtQ m).getD 14 37 = 0 ∧
    (meteorVertices sqrtQ m).getD 26 37 = 0 ∧
    (meteorVertices sqrtQ m).getD 32 37 = 0 :=
  ⟨rfl, rfl, rfl, rfl, rfl, rfl⟩

/-- C7: after every `update()` the star buffer holds exactly 7 floats per
live star and the meteor buffer exactly 36 floats (6 vertices of 6 floats)
per live meteor — both built from the post-retention lists, so removed
particles contribute nothing — and each meteor's six vertices carry
`head_alpha = 1 - lifetime/max_lifetime` on the head pair (vertex slots 0, 1
and the duplicated slot 3; float offsets 2, 8, 20) and alpha `0` on the tail
pair (slots 2, 4, 5; float offsets 14, 26, 32). -/
theorem update_buffer_shapes (P : MathPrims) (fr : FrameRand) (st : StarField) :
    (buildStarData (updateState P fr st).stars).length =
        7 * (updateState P fr st).stars.length ∧
    (buildMeteorData P.sqrtQ (updateState P fr st).meteors).length =
        36 * (updateState P fr st).meteors.length ∧
    ∀ m ∈ (updateState P fr st).meteors,
      (meteorVertices P.sqrtQ m).getD 2 37 = 1 - m.lifetime / m.max_lifetime ∧
      (meteorVertices P.sqrtQ m).getD 8 37 = 1 - m.lifetime / m.max_lifetime ∧
      (meteorVertices P.sqrtQ m).getD 20 37 = 1 - m.lifetime / m.max_lifetime ∧
      (meteorVertices P.sqrtQ m).getD 14 37 = 0 ∧
      (meteorVertices P.sqrtQ m).getD 26 37 = 0 ∧
      (meteorVertices P.sqrtQ m).getD 32 37 = 0 :=
  ⟨buildStarData_length _, buildMeteorData_length _ _,
   fun m _ => meteorVertices_alphas P.sqrtQ m⟩

/-- Closed instance of `update_buffer_shapes` at a concrete field. -/
theorem update_buffer_shapes_witness :
    (buildStarData (updateState Pc frN stC3).stars).length =
        7 * (updateState Pc frN stC3).stars.length ∧
    (meteorVertices Pc.sqrtQ (stepMeteor meteorC3)).getD 2 37 =
        1 - (stepMeteor meteorC3).lifetime / (stepMeteor meteorC3).max_lifetime :=
  ⟨(update_buffer_shapes Pc frN stC3).1,
   ((update_buffer_shapes Pc frN stC3).2.2 (stepMeteor meteorC3)
      (by norm_num [updateState, stC3, frN, stepMeteor, meteorC3])).1⟩

/-- C8: in the Box-Muller step of `init_stars`, because `u1` is clamped to at
least `0.000001` before the logarithm, the computed gaussian is finite
(neither infinite nor NaN) for every draw `u1 < 1` — including `u1 = 0` — and
every `u2`; the only analytic fact used is that `ln` of an argument in `(0,1)`
is nonpositive. -/
theorem box_muller_finite (P : MathPrims) (u1 u2 : ℚ) (h1 : u1 < 1)
    (hln : ∀ x : ℚ, 0 < x → x < 1 → P.lnQ x ≤ 0) :
    (boxMullerE P u1 u2).isFinite = true := by
  dsimp [boxMullerE]
  have hpos : 0 < max u1 (1/1000000 : ℚ) := lt_max_of_lt_right (by norm_num)
  have hlt1 : max u1 (1/1000000 : ℚ) < 1 := max_lt h1 (by norm_num)
  have hle : P.lnQ (max u1 (1/1000000 : ℚ)) ≤ 0 := hln _ hpos hlt1
  rw [lnE, if_pos hpos]
  rw [negTwoMulE, sqrtE, if_pos (by linarith), cosE, mulE]
  rfl

/-- Closed instance of `box_muller_finite` at the raw draw `u1 = 0`. -/
theorem box_muller_finite_witness :
    (boxMullerE Pc 0 0).isFinite = true :=
  box_muller_finite Pc 0 0 (by norm_num)
    (fun x hx hx1 => by norm_num [Pc])

lemma box_muller_no_clamp_not_finite (P : MathPrims) (u2 : ℚ) :
    (boxMullerNoClampE P 0 u2).isFinite = false := by
  dsimp [boxMullerNoClampE]
  rw [lnE]
  norm_num
  rw [negTwoMulE, sqrtE, cosE, mulE]
  split_ifs <;> rfl

/-- C9: every meteor `update()` spawns has `vx = 1 * cos(π/4)` and
`vy = 1 * sin(π/4)`; since `cos(π/4) = sin(π/4) ≥ 0.7` and `sqrt` is
bounded below by `1/2` on arguments `≥ 1/4`, the computed speed exceeds the
`0.0001` guard, so the degenerate-direction fallback `(1,0)` of the trail
geometry is never taken for a spawned meteor (and `stepMeteor` preserves the
velocity, so the same holds on every later frame of its life). -/
theorem spawn_meteor_no_degenerate_dir (P : MathPrims) (fr : FrameRand) (res : ℚ × ℚ)
    (hc : 7/10 ≤ P.cosQ (P.piQ / 4)) (hs : 7/10 ≤ P.sinQ (P.piQ / 4))
    (hsqrt : ∀ x : ℚ, 1/4 ≤ x → 1/2 ≤ P.sqrtQ x) :
    (spawnMeteor P fr res).vx = 1 * P.cosQ (P.piQ / 4) ∧
    (spawnMeteor P fr res).vy = 1 * P.sinQ (P.piQ / 4) ∧
    (∀ m : Meteor, (stepMeteor m).vx = m.vx ∧ (stepMeteor m).vy = m.vy) ∧
    ∀ m : Meteor, m.vx = (spawnMeteor P fr res).vx → m.vy = (spawnMeteor P fr res).vy →
      1/10000 < P.sqrtQ (m.vx * m.vx + m.vy * m.vy) ∧
      meteorNormDir P.sqrtQ m =
        (m.vx / P.sqrtQ (m.vx * m.vx + m.vy * m.vy),
         m.vy / P.sqrtQ (m.vx * m.vx + m.vy * m.vy)) := by
  refine ⟨rfl, rfl, fun m => ⟨rfl, rfl⟩, ?_⟩
  intro m hvx hvy
  have hvx' : m.vx = P.cosQ (P.piQ / 4) := by rw [hvx]; exact one_mul _
  have hvy' : m.vy = P.sinQ (P.piQ / 4) := by rw [hvy]; exact one_mul _
  have hsq : (1:ℚ)/4 ≤ m.vx * m.vx + m.vy * m.vy := by
    rw [hvx', hvy']
    nlinarith
  have hspeed : (1:ℚ)/2 ≤ P.sqrtQ (m.vx * m.vx + m.vy * m.vy) := hsqrt _ hsq
  have hguard : (1:ℚ)/10000 < P.sqrtQ (m.vx * m.vx + m.vy * m.vy) := by linarith
  refine ⟨hguard, ?_⟩
  dsimp [meteorNormDir]
  rw [if_pos hguard]

/-- Closed instance of `spawn_meteor_no_degenerate_dir` at a concrete
primitive record and spawn. -/
theorem spawn_meteor_no_degenerate_dir_witness :
    (1:ℚ)/10000 < Pc9.sqrtQ ((spawnMeteor Pc9 frS (100, 100)).vx *
        (spawnMeteor Pc9 frS (100, 100)).vx +
        (spawnMeteor Pc9 frS (100, 100)).vy * (spawnMeteor Pc9 frS (100, 100)).vy) := by
  have H := spawn_meteor_no_degenerate_dir Pc9 frS (100, 100)
    (by norm_num [Pc9]) (by norm_num [Pc9])
    (fun x hx => by norm_num [Pc9])
  exact (H.2.2.2 (spawnMeteor Pc9 frS (100, 100)) rfl rfl).1

/-- C10: `resize()` never touches the meteors collection — whatever the old
and new dimensions and backfill draws, the meteor list (every position,
velocity and lifetime) is exactly the one before the call. -/
theorem resize_preserves_meteors (new_width new_height : ℚ) (bf : Nat → BackfillRand)
    (st : StarField) :
    (resize new_width new_height bf st).meteors = st.meteors := by
  unfold resize
  dsimp only
  split
  · rfl
  · split <;> rfl

end SOJ
